import Mathlib

/-!
Verification development for the kernel k-means clustering engine
(`KKMeans_frankenstein` in `pygraphs/cluster/kkmeans_old.py`).

The engine is embedded shallowly:
* real values are modelled by `ℚ` (exact arithmetic in place of float64);
* the numpy `RandomState` machinery is modelled by an explicit environment
  `RngEnv`: `seedGen s p k n` is the labelling returned by the `p`-th
  `randint(k, size=n)` draw of a generator seeded with the integer `s`, and
  `ambient`/`ambientPos` model the global generator used when
  `random_state=None` (`check_random_state(None)` returns the shared global
  generator, so global draws advance a shared position);
* matrices are total functions `ℕ → ℕ → ℚ` read on `[0,n) × [0,k)`;
* label vectors and weight vectors are lists indexed with `getD`;
* a Python `raise` is an `Except.error`; `raise NotImplemented()` carries no
  parameter information, which the error type mirrors with a single
  parameterless constructor `notImplemented` used by both the
  distance-compensation dispatch and the strategy dispatch.

`fitT` additionally returns the number of distance-matrix computations the
call performed (pure instrumentation of the operational behaviour), used to
state when an error is raised relative to the clustering work.
-/

namespace KKMeans

/-- Environment of pseudo-random sources: a seed-indexed family of draw
streams plus the global stream used for `random_state=None`. -/
structure RngEnv where
  seedGen : ℕ → ℕ → ℕ → ℕ → List ℕ
  ambient : ℕ → ℕ → ℕ → List ℕ
  ambientPos : ℕ

/-- A handle to a `RandomState`: either one freshly seeded with an integer
(at some stream position) or the shared global generator. -/
inductive RsHandle where
  | seeded (seed pos : ℕ)
  | globalGen
deriving DecidableEq, Repr

/-- `check_random_state`: an integer seed gives a fresh seeded generator at
position 0; `None` gives the shared global generator. -/
def checkRandomState : Option ℕ → RsHandle
  | some s => .seeded s 0
  | none => .globalGen

/-- One `randint(k, size=n)` draw: returns labels, the advanced handle and the
(possibly advanced) environment. Seeded draws never touch the environment;
global draws advance the shared position. -/
def draw (env : RngEnv) (h : RsHandle) (k n : ℕ) : List ℕ × RsHandle × RngEnv :=
  match h with
  | .seeded s p => (env.seedGen s p k n, .seeded s (p + 1), env)
  | .globalGen =>
      (env.ambient env.ambientPos k n, .globalGen,
        { env with ambientPos := env.ambientPos + 1 })

/-- Indices of the fitted samples currently assigned to cluster `j`
(the mask `self.labels_ == j`). -/
def members (L : List ℕ) (nFit j : ℕ) : List ℕ :=
  (List.range nFit).filter (fun i => L.getD i 0 = j)

/-- Total weight of a member list (`sw[mask].sum()`). -/
def clusterWeight (sw : List ℚ) (mem : List ℕ) : ℚ :=
  (mem.map (fun m => sw.getD m 0)).sum

/-- `np.sum(np.outer(sw[mask], sw[mask]) * KK / denomsq)`: each (p,q) term is
divided by `denom * denom` and the terms are summed. -/
def withinNew (K : ℕ → ℕ → ℚ) (sw : List ℚ) (mem : List ℕ) : ℚ :=
  let denom := clusterWeight sw mem
  (mem.map (fun p =>
    (mem.map (fun q => sw.getD p 0 * sw.getD q 0 * K p q / (denom * denom))).sum)).sum

/-- `np.sum(sw[mask] * K[:, mask], axis=1)` at row `i`. -/
def crossSum (K : ℕ → ℕ → ℚ) (sw : List ℚ) (mem : List ℕ) (i : ℕ) : ℚ :=
  (mem.map (fun m => sw.getD m 0 * K i m)).sum

/-- The value written into `dist[i, j]` by the cluster-`j` pass of
`_compute_dist` (on top of the incoming entry `dist0 i j`). -/
def distEntry (K : ℕ → ℕ → ℚ) (sw : List ℚ) (L : List ℕ) (within : List ℚ)
    (updateWithin : Bool) (dist0 : ℕ → ℕ → ℚ) (nFit i j : ℕ) : ℚ :=
  let mem := members L nFit j
  let denom := clusterWeight sw mem
  let base := if updateWithin then withinNew K sw mem else within.getD j 0
  dist0 i j + base - 2 * crossSum K sw mem i / denom

/-- The first cluster index `j < k` whose member set is empty, if any
(the cluster at which the `_compute_dist` loop breaks). -/
def firstEmpty (L : List ℕ) (nFit k : ℕ) : Option ℕ :=
  (List.range k).find? (fun j => (members L nFit j).isEmpty)

/-- Result of `_compute_dist`: the distance matrix, the (possibly replaced)
labels, the (possibly reset) within-cluster distances, the environment after
any recovery draw, and whether the empty-cluster recovery branch fired. -/
structure CDResult where
  dist : ℕ → ℕ → ℚ
  labels : List ℕ
  within : List ℚ
  env : RngEnv
  recovered : Bool

/-- `_compute_dist(K, dist, update_within)`.  The loop over clusters either
completes (no empty cluster: every column `j < k` receives its kernel-trick
value) or breaks at the first empty cluster `j0`: columns `j < j0` were
already written from the pre-recovery labels, columns `j ≥ j0` keep the
incoming entries, the labels are replaced by a draw from a freshly constructed
`check_random_state(self.random_state)` generator, and the within-cluster
distance vector is zero-filled. -/
def computeDist (K : ℕ → ℕ → ℚ) (sw : List ℚ) (L : List ℕ) (within : List ℚ)
    (updateWithin : Bool) (nFit k : ℕ) (rsOpt : Option ℕ) (env : RngEnv)
    (dist0 : ℕ → ℕ → ℚ) : CDResult :=
  match firstEmpty L nFit k with
  | some j0 =>
      let d := draw env (checkRandomState rsOpt) k nFit
      { dist := fun i j =>
          if j < j0 then distEntry K sw L within updateWithin dist0 nFit i j
          else dist0 i j,
        labels := d.1,
        within := List.replicate k 0,
        env := d.2.2,
        recovered := true }
  | none =>
      { dist := fun i j =>
          if j < k then distEntry K sw L within updateWithin dist0 nFit i j
          else dist0 i j,
        labels := L,
        within :=
          if updateWithin then
            (List.range k).map (fun j => withinNew K sw (members L nFit j))
          else within,
        env := env,
        recovered := false }

/-- `dist.argmin(axis=1)` on one row: the least index in `[0,k)` attaining the
minimum (numpy returns the first occurrence of the minimum). -/
def argminRow (f : ℕ → ℚ) (k : ℕ) : ℕ :=
  (List.range k).foldl (fun best j => if f j < f best then j else best) 0

/-- `np.sum((labels - labels_old) == 0)`: number of positions where the two
label vectors agree. -/
def countSame (a b : List ℕ) : ℕ :=
  (a.zip b).countP (fun p => p.1 == p.2)

/-- Mutable state of one restart of the iteration loop. -/
structure LoopState where
  dist : ℕ → ℕ → ℚ
  labels : List ℕ
  within : List ℚ
  env : RngEnv

/-- One pass of the `for it in range(max_iter)` body: zero-fill `dist`, run
`_compute_dist(update_within=True)`, record the (possibly recovery-replaced)
labels as `labels_old`, reassign labels by row-wise argmin of the computed
matrix, and report whether the convergence test `1 - n_same/n < tol` fired. -/
def iterOnce (K : ℕ → ℕ → ℚ) (sw : List ℚ) (n k : ℕ) (tol : ℚ)
    (rsOpt : Option ℕ) (st : LoopState) : LoopState × Bool :=
  let cd := computeDist K sw st.labels st.within true n k rsOpt st.env (fun _ _ => 0)
  let labelsOld := cd.labels
  let labelsNew := (List.range n).map (fun i => argminRow (cd.dist i) k)
  let conv := decide ((1 : ℚ) - (countSame labelsNew labelsOld : ℚ) / (n : ℚ) < tol)
  ({ dist := cd.dist, labels := labelsNew, within := cd.within, env := cd.env }, conv)

/-- The restart iteration loop with fuel `max_iter`; returns the final state
and the number of iterations executed (`it + 1` at loop exit). -/
def restartLoop (K : ℕ → ℕ → ℚ) (sw : List ℚ) (n k : ℕ) (tol : ℚ)
    (rsOpt : Option ℕ) : ℕ → LoopState → LoopState × ℕ
  | 0, st => (st, 0)
  | fuel + 1, st =>
      let r := iterOnce K sw n k tol rsOpt st
      if r.2 then (r.1, 1)
      else if fuel = 0 then (r.1, 1)
      else
        let rest := restartLoop K sw n k tol rsOpt fuel r.1
        (rest.1, rest.2 + 1)

/-- Exceptions `fit`/`predict` can raise. Validation failures carry the
offending value (the Python `ValueError` messages name the parameter), while
`raise NotImplemented()` — used for both an unrecognized compensation policy
and an unrecognized selection strategy — carries nothing. -/
inductive FitError where
  | nSamplesLtClusters (n k : ℕ)
  | badNInit (v : ℤ)
  | badMaxIter (v : ℤ)
  | notImplemented
  | assertionError
  | objectiveLookup
deriving DecidableEq, Repr

/-- All entries of the `n × k` matrix, row-major (for `np.min(dist)`). -/
def matEntries (d : ℕ → ℕ → ℚ) (n k : ℕ) : List ℚ :=
  (List.range n).flatMap (fun i => (List.range k).map (fun j => d i j))

/-- `np.min(dist)` (only used on non-empty matrices in the engine). -/
def matMin (d : ℕ → ℕ → ℚ) (n k : ℕ) : ℚ :=
  match matEntries d n k with
  | [] => 0
  | x :: xs => xs.foldl min x

/-- The distance-compensation dispatch of `fit`: `'+40'` adds 40 to every
entry, `'<0->0'` clamps negative entries to zero, `'-min'` subtracts the
global minimum, anything else raises `NotImplemented`. -/
def compensate (policy : String) (d : ℕ → ℕ → ℚ) (n k : ℕ) :
    Except FitError (ℕ → ℕ → ℚ) :=
  if policy = "+40" then .ok (fun i j => d i j + 40)
  else if policy = "<0->0" then .ok (fun i j => if d i j < 0 then 0 else d i j)
  else if policy = "-min" then .ok (fun i j => d i j - matMin d n k)
  else .error .notImplemented

/-- The compensated matrix for a recognized policy (the raw matrix is returned
on the error branch, which recognized policies never take). -/
def compApply (policy : String) (d : ℕ → ℕ → ℚ) (n k : ℕ) : ℕ → ℕ → ℚ :=
  match compensate policy d n k with
  | .ok d2 => d2
  | .error _ => d

/-- `np.all(dist >= 0)` over the `n × k` window. -/
def allNonneg (d : ℕ → ℕ → ℚ) (n k : ℕ) : Bool :=
  decide (∀ i < n, ∀ j < k, 0 ≤ d i j)

/-- `np.sum([d[l] ** 2 for d, l in zip(dist, labels)])`. -/
def inertiaOf (d : ℕ → ℕ → ℚ) (L : List ℕ) (n : ℕ) : ℚ :=
  ((List.range n).map (fun i => (d i (L.getD i 0)) ^ 2)).sum

/-- The record appended to `results` at the end of each restart. -/
structure RestartRecord where
  inertia : ℚ
  n_iter : ℕ
  labels : List ℕ
  distances : List ℚ
deriving DecidableEq, Repr

/-- Default record for total list indexing (never reached: `n_init ≥ 1`
guarantees the results list is non-empty). -/
def dummyRecord : RestartRecord :=
  { inertia := 0, n_iter := 0, labels := [], distances := [] }

/-- The `for i in range(self.n_init)` restart loop: each restart draws initial
labels from the shared generator `h`, zeroes the within-cluster distances,
runs the iteration loop, compensates and asserts on the final distance matrix
and records the result. Returns the records (or the first raised error), the
final environment and the total number of iterations executed. -/
def runRestarts (K : ℕ → ℕ → ℚ) (sw : List ℚ) (n k : ℕ) (tol : ℚ)
    (maxIterN : ℕ) (rsOpt : Option ℕ) (policy : String) :
    ℕ → RsHandle → RngEnv → ℕ → List RestartRecord →
    Except FitError (List RestartRecord) × RngEnv × ℕ
  | 0, _, env, ghost, acc => (.ok acc.reverse, env, ghost)
  | cnt + 1, h, env, ghost, acc =>
      let d0 := draw env h k n
      let st0 : LoopState :=
        { dist := fun _ _ => 0, labels := d0.1, within := List.replicate k 0,
          env := d0.2.2 }
      let res := restartLoop K sw n k tol rsOpt maxIterN st0
      let ghost2 := ghost + res.2
      match compensate policy res.1.dist n k with
      | .error e => (.error e, res.1.env, ghost2)
      | .ok d2 =>
          if allNonneg d2 n k then
            let r : RestartRecord :=
              { inertia := inertiaOf d2 res.1.labels n, n_iter := res.2,
                labels := res.1.labels, distances := res.1.within }
            runRestarts K sw n k tol maxIterN rsOpt policy cnt d0.2.1
              res.1.env ghost2 (r :: acc)
          else (.error .assertionError, res.1.env, ghost2)

/-- The sort key `lambda x: x[self.init_choose_objective]` for the objectives
that denote comparable numbers with `y=None`; any other objective makes the
keyed sort fail. -/
def objectiveKey (objective : String) : Option (RestartRecord → ℚ) :=
  if objective = "inertia" then some (fun r => r.inertia)
  else if objective = "n_iter" then some (fun r => (r.n_iter : ℚ))
  else none

/-- `results.sort(key=...)`: ascending sort by the key. -/
def sortRecords (key : RestartRecord → ℚ) (rs : List RestartRecord) :
    List RestartRecord :=
  List.insertionSort (fun a b => key a ≤ key b) rs

/-- The strategy dispatch on the sorted results: `'max'` takes the last
element, `'min'` the first, `'median'` the element at `len // 2`; anything
else raises `NotImplemented`. -/
def chooseRecord (strategy : String) (s : List RestartRecord) :
    Except FitError RestartRecord :=
  if strategy = "max" then .ok (s.getD (s.length - 1) dummyRecord)
  else if strategy = "min" then .ok (s.getD 0 dummyRecord)
  else if strategy = "median" then .ok (s.getD (s.length / 2) dummyRecord)
  else .error .notImplemented

/-- The inertia of the restart a strategy selects (0 on the error branch). -/
def chosenInertia (strategy : String) (s : List RestartRecord) : ℚ :=
  match chooseRecord strategy s with
  | .ok r => r.inertia
  | .error _ => 0

/-- Constructor parameters of `KKMeans_frankenstein` relevant to `fit`
(`kernel='precomputed'`, the engine's mode of use, is fixed: `_get_kernel`
then returns its input matrix). -/
structure Config where
  n_clusters : ℕ
  max_iter : ℤ
  tol : ℚ
  n_init : ℤ
  init_choose_objective : String
  init_choose_strategy : String
  dist_compensation_strategy : String
  random_state : Option ℕ

/-- The fitted attributes read by `predict`. -/
structure FittedModel where
  labels_ : List ℕ
  within_distances_ : List ℚ
  n_iter_ : ℕ
  sample_weight_ : List ℚ
  n_clusters : ℕ
  nFit : ℕ
  random_state : Option ℕ
deriving DecidableEq, Repr

/-- `fit(X, y=None, sample_weight)` with a precomputed `n × n` kernel matrix,
instrumented with the number of iteration-loop passes (distance-matrix
computations) executed.  Validation order follows the source:
`_check_fit_data` (`n_samples >= n_clusters`), then `n_init > 0`, then
`max_iter > 0`; afterwards the restarts run, the results are sorted by the
configured objective and the configured strategy picks the fitted restart. -/
def fitT (cfg : Config) (K : ℕ → ℕ → ℚ) (n : ℕ)
    (sampleWeight : Option (List ℚ)) (env : RngEnv) :
    Except FitError FittedModel × ℕ :=
  if n < cfg.n_clusters then (.error (.nSamplesLtClusters n cfg.n_clusters), 0)
  else if cfg.n_init ≤ 0 then (.error (.badNInit cfg.n_init), 0)
  else if cfg.max_iter ≤ 0 then (.error (.badMaxIter cfg.max_iter), 0)
  else
    let sw := sampleWeight.getD (List.replicate n 1)
    let h0 := checkRandomState cfg.random_state
    let rr := runRestarts K sw n cfg.n_clusters cfg.tol cfg.max_iter.toNat
      cfg.random_state cfg.dist_compensation_strategy cfg.n_init.toNat h0 env 0 []
    match rr.1 with
    | .error e => (.error e, rr.2.2)
    | .ok results =>
        match objectiveKey cfg.init_choose_objective with
        | none => (.error .objectiveLookup, rr.2.2)
        | some key =>
            match chooseRecord cfg.init_choose_strategy (sortRecords key results) with
            | .error e => (.error e, rr.2.2)
            | .ok r =>
                (.ok { labels_ := r.labels, within_distances_ := r.distances,
                       n_iter_ := r.n_iter, sample_weight_ := sw,
                       n_clusters := cfg.n_clusters, nFit := n,
                       random_state := cfg.random_state }, rr.2.2)

/-- `fit` without the instrumentation counter. -/
def fit (cfg : Config) (K : ℕ → ℕ → ℚ) (n : ℕ)
    (sampleWeight : Option (List ℚ)) (env : RngEnv) :
    Except FitError FittedModel :=
  (fitT cfg K n sampleWeight env).1

/-- Result of `predict`: the returned labels, the model attributes as they
stand after the call (`_compute_dist` writes `self.labels_` and
`self.within_distances_` on its recovery branch), and the environment. -/
structure PredictResult where
  labels : List ℕ
  model : FittedModel
  env : RngEnv

/-- `predict(X)` with a precomputed `nNew × nFit` kernel matrix `Knew`:
zero dist, `_compute_dist(update_within=False)` over the fitted labels,
row-wise argmin. -/
def predict (m : FittedModel) (Knew : ℕ → ℕ → ℚ) (nNew : ℕ) (env : RngEnv) :
    PredictResult :=
  let cd := computeDist Knew m.sample_weight_ m.labels_ m.within_distances_
    false m.nFit m.n_clusters m.random_state env (fun _ _ => 0)
  { labels := (List.range nNew).map (fun i => argminRow (cd.dist i) m.n_clusters),
    model := { m with labels_ := cd.labels, within_distances_ := cd.within },
    env := cd.env }

/-- Rendering of the spec formula `within_j = Σ_{p,q in cluster j}
weight(p)·weight(q)·K(p,q) / (Σ_{m in cluster j} weight(m))²` (§4.2), written
as the quotient of the double sum by the squared total weight, for comparison
with the source computation. -/
def specWithin (K : ℕ → ℕ → ℚ) (sw : List ℚ) (L : List ℕ) (n j : ℕ) : ℚ :=
  let mem := members L n j
  ((mem.map (fun p =>
      (mem.map (fun q => sw.getD p 0 * sw.getD q 0 * K p q)).sum)).sum) /
    (clusterWeight sw mem * clusterWeight sw mem)

/-- Rendering of the spec cross term `Σ_{m in cluster j} weight(m)·K(i,m) /
Σ_{m in cluster j} weight(m)` (§4.2). -/
def specCross (K : ℕ → ℕ → ℚ) (sw : List ℚ) (L : List ℕ) (n i j : ℕ) : ℚ :=
  let mem := members L n j
  (mem.map (fun m => sw.getD m 0 * K i m)).sum / clusterWeight sw mem

/-- The spec distance `dist(i,j) = within_j − 2·cross(i,j)` with the freshly
recomputed within term (`update_within=true` path, §4.2). -/
def specDistTrue (K : ℕ → ℕ → ℚ) (sw : List ℚ) (L : List ℕ) (n i j : ℕ) : ℚ :=
  specWithin K sw L n j - 2 * specCross K sw L n i j

/-- The spec distance with the stored within-cluster constants
(`update_within=false` path, §4.2). -/
def specDistFalse (K : ℕ → ℕ → ℚ) (sw : List ℚ) (within : List ℚ)
    (L : List ℕ) (n i j : ℕ) : ℚ :=
  within.getD j 0 - 2 * specCross K sw L n i j

/-! ### Concrete instances used by counterexamples and witnesses -/

/-- An all-(−41) raw distance matrix (adversarial input for compensation). -/
def negFortyOne : ℕ → ℕ → ℚ := fun _ _ => -41

/-- An all-(−5) raw distance matrix. -/
def negFive : ℕ → ℕ → ℚ := fun _ _ => -5

/-- Environment whose seeded streams always return `[0, 0]`. -/
def envTwoZeros : RngEnv :=
  { seedGen := fun _ _ _ _ => [0, 0], ambient := fun _ _ _ => [], ambientPos := 0 }

/-- Environment whose seeded streams always return `[0, 1]`. -/
def envZeroOne : RngEnv :=
  { seedGen := fun _ _ _ _ => [0, 1], ambient := fun _ _ _ => [], ambientPos := 0 }

/-- Environment whose seeded streams always return `[0, 1, 0, 1]`. -/
def envAlt4 : RngEnv :=
  { seedGen := fun _ _ _ _ => [0, 1, 0, 1], ambient := fun _ _ _ => [], ambientPos := 0 }

/-- Environment whose seeded streams always return all-zero labels. -/
def envZeros : RngEnv :=
  { seedGen := fun _ _ _ n => List.replicate n 0, ambient := fun _ _ _ => [],
    ambientPos := 0 }

/-- `envZeros` with a different global stream and position (used to vary the
ambient randomness while keeping the seeded streams). -/
def envZerosShifted : RngEnv :=
  { seedGen := fun _ _ _ n => List.replicate n 0,
    ambient := fun p _ _ => [p, p], ambientPos := 7 }

/-- The 2×2 kernel `[[-1, 0], [0, -1]]`. -/
def Kneg : ℕ → ℕ → ℚ := fun i j => if i = j then -1 else 0

/-- The 2×2 identity kernel `[[1, 0], [0, 1]]`. -/
def Kid : ℕ → ℕ → ℚ := fun i j => if i = j then 1 else 0

/-- The all-ones kernel. -/
def Kones : ℕ → ℕ → ℚ := fun _ _ => 1

/-- The spec's 4×4 block kernel `[[1,1,0,0],[1,1,0,0],[0,0,1,1],[0,0,1,1]]`
(§8 concrete scenario). -/
def Kblock : ℕ → ℕ → ℚ := fun i j =>
  if (i < 2 ∧ j < 2) ∨ (2 ≤ i ∧ i < 4 ∧ 2 ≤ j ∧ j < 4) then 1 else 0

/-- Loop state whose labels `[0, 0]` leave cluster 1 empty (k = 2). -/
def stEmpty1 : LoopState :=
  { dist := fun _ _ => 0, labels := [0, 0], within := [0, 0], env := envTwoZeros }

/-- Loop state with the stable block assignment `[0, 0, 1, 1]`. -/
def stStable : LoopState :=
  { dist := fun _ _ => 0, labels := [0, 0, 1, 1], within := [0, 0], env := envAlt4 }

/-- Configuration used for the empty-cluster fit run: k = 2, one restart,
`tol = 3/5`, clamp-zero compensation, `max` strategy, seed 0. -/
def cfgBlock : Config :=
  { n_clusters := 2, max_iter := 50, tol := 3/5, n_init := 1,
    init_choose_objective := "inertia", init_choose_strategy := "max",
    dist_compensation_strategy := "<0->0", random_state := some 0 }

/-- Minimal valid configuration except for an unrecognized compensation
policy. -/
def cfgBadPolicy : Config :=
  { n_clusters := 1, max_iter := 1, tol := 1/2, n_init := 1,
    init_choose_objective := "inertia", init_choose_strategy := "min",
    dist_compensation_strategy := "oops", random_state := some 0 }

/-- Minimal valid configuration except for an unrecognized selection
strategy. -/
def cfgBadStrategy : Config :=
  { cfgBadPolicy with
    dist_compensation_strategy := "-min"
    init_choose_strategy := "oops" }

/-- `cfgBadPolicy` made fully valid (strategy `min`, policy `-min`). -/
def cfgValid1 : Config :=
  { cfgBadPolicy with dist_compensation_strategy := "-min" }

/-- A valid configuration with `n_clusters = 2` (so `fit` on one sample
fails validation). -/
def cfgTwoClusters : Config := { cfgValid1 with n_clusters := 2 }

/-- A configuration with `n_init = 0`. -/
def cfgZeroInit : Config := { cfgValid1 with n_init := 0 }

/-- A configuration with `max_iter = 0`. -/
def cfgZeroIter : Config := { cfgValid1 with max_iter := 0 }

/-- Fitted model whose labels `[0, 0]` leave cluster 1 empty, with non-zero
stored within-cluster distances. -/
def mEmpty1 : FittedModel :=
  { labels_ := [0, 0], within_distances_ := [3, 3], n_iter_ := 1,
    sample_weight_ := [1, 1], n_clusters := 2, nFit := 2, random_state := some 0 }

/-- Fitted model whose labels `[0, 1]` use both clusters. -/
def mFull : FittedModel :=
  { labels_ := [0, 1], within_distances_ := [0, 0], n_iter_ := 1,
    sample_weight_ := [1, 1], n_clusters := 2, nFit := 2, random_state := some 0 }

/-- Two restart records with inertias 5 and 3. -/
def recA : RestartRecord := { inertia := 5, n_iter := 2, labels := [0, 1], distances := [0, 0] }

/-- See `recA`. -/
def recB : RestartRecord := { inertia := 3, n_iter := 1, labels := [1, 0], distances := [0, 0] }

/-! ### Helper lemmas -/

theorem foldl_min_le_init (xs : List ℚ) (a : ℚ) : xs.foldl min a ≤ a := by
  induction xs generalizing a with
  | nil => exact le_refl a
  | cons x xs ih => exact le_trans (ih (min a x)) (min_le_left a x)

theorem foldl_min_le_mem (xs : List ℚ) (a x : ℚ) (h : x ∈ xs) : xs.foldl min a ≤ x := by
  induction xs generalizing a with
  | nil => cases h
  | cons y ys ih =>
      rcases List.mem_cons.mp h with h1 | h2
      · subst h1
        exact le_trans (foldl_min_le_init ys (min a x)) (min_le_right a x)
      · exact ih (min a y) h2

theorem mem_matEntries (d : ℕ → ℕ → ℚ) (n k i j : ℕ) (hi : i < n) (hj : j < k) :
    d i j ∈ matEntries d n k := by
  unfold matEntries
  refine List.mem_flatMap.mpr ⟨i, List.mem_range.mpr hi, ?_⟩
  exact List.mem_map.mpr ⟨j, List.mem_range.mpr hj, rfl⟩

theorem matMin_le (d : ℕ → ℕ → ℚ) (n k i j : ℕ) (hi : i < n) (hj : j < k) :
    matMin d n k ≤ d i j := by
  have hm := mem_matEntries d n k i j hi hj
  rcases hE : matEntries d n k with _ | ⟨x, xs⟩
  · rw [hE] at hm; cases hm
  · rw [hE] at hm
    have hmm : matMin d n k = xs.foldl min x := by
      unfold matMin; rw [hE]
    rw [hmm]
    rcases List.mem_cons.mp hm with h1 | h2
    · rw [h1]; exact foldl_min_le_init xs x
    · exact foldl_min_le_mem xs x (d i j) h2

theorem sum_map_div {α : Type} (l : List α) (f : α → ℚ) (c : ℚ) :
    (l.map (fun x => f x / c)).sum = (l.map f).sum / c := by
  induction l with
  | nil => simp
  | cons x xs ih => simp [ih, add_div]

theorem double_sum_div (mem : List ℕ) (g : ℕ → ℕ → ℚ) (c : ℚ) :
    (mem.map (fun p => (mem.map (fun q => g p q / c)).sum)).sum
      = (mem.map (fun p => (mem.map (fun q => g p q)).sum)).sum / c := by
  rw [← sum_map_div mem (fun p => (mem.map (fun q => g p q)).sum) c]
  refine congrArg List.sum (List.map_congr_left fun p _ => ?_)
  exact sum_map_div mem (fun q => g p q) c

theorem withinNew_eq_specWithin (K : ℕ → ℕ → ℚ) (sw : List ℚ) (L : List ℕ) (n j : ℕ) :
    withinNew K sw (members L n j) = specWithin K sw L n j := by
  simp only [withinNew, specWithin]
  exact double_sum_div (members L n j)
    (fun p q => sw.getD p 0 * sw.getD q 0 * K p q)
    (clusterWeight sw (members L n j) * clusterWeight sw (members L n j))

theorem countSame_self (a : List ℕ) : countSame a a = a.length := by
  induction a with
  | nil => rfl
  | cons x xs ih =>
      show ((x, x) :: xs.zip xs).countP (fun p => p.1 == p.2) = xs.length + 1
      rw [List.countP_cons]
      have h2 : (xs.zip xs).countP (fun p => p.1 == p.2) = xs.length := ih
      simp [h2]

theorem firstEmpty_eq_none (L : List ℕ) (n k : ℕ)
    (h : ∀ j < k, members L n j ≠ []) : firstEmpty L n k = none := by
  unfold firstEmpty
  refine List.find?_eq_none.mpr fun j hj => ?_
  simpa [List.isEmpty_iff] using h j (List.mem_range.mp hj)

theorem restartLoop_count_pos (K : ℕ → ℕ → ℚ) (sw : List ℚ) (n k : ℕ) (tol : ℚ)
    (rsOpt : Option ℕ) (fuel : ℕ) (st : LoopState) (h : 1 ≤ fuel) :
    1 ≤ (restartLoop K sw n k tol rsOpt fuel st).2 := by
  obtain ⟨f, rfl⟩ : ∃ f, fuel = f + 1 := ⟨fuel - 1, by omega⟩
  rw [restartLoop]
  split
  · exact le_refl 1
  · split
    · exact le_refl 1
    · exact Nat.le_add_left 1 _

theorem sortRecords_sorted (key : RestartRecord → ℚ) (rs : List RestartRecord) :
    (sortRecords key rs).Sorted (fun a b => key a ≤ key b) := by
  haveI h1 : IsTotal RestartRecord (fun a b => key a ≤ key b) :=
    ⟨fun a b => le_total (key a) (key b)⟩
  haveI h2 : IsTrans RestartRecord (fun a b => key a ≤ key b) :=
    ⟨fun _ _ _ hab hbc => le_trans hab hbc⟩
  exact List.sorted_insertionSort _ rs

theorem sortRecords_length (key : RestartRecord → ℚ) (rs : List RestartRecord) :
    (sortRecords key rs).length = rs.length :=
  (List.perm_insertionSort _ rs).length_eq

theorem sorted_key_getD_le (key : RestartRecord → ℚ) (s : List RestartRecord)
    (hs : s.Sorted (fun a b => key a ≤ key b)) (i j : ℕ) (hij : i ≤ j)
    (hj : j < s.length) :
    key (s.getD i dummyRecord) ≤ key (s.getD j dummyRecord) := by
  have hi : i < s.length := lt_of_le_of_lt hij hj
  rw [List.getD_eq_getElem?_getD, List.getElem?_eq_getElem hi,
    List.getD_eq_getElem?_getD, List.getElem?_eq_getElem hj]
  rcases lt_or_eq_of_le hij with h | h
  · have := hs.rel_get_of_lt (a := ⟨i, hi⟩) (b := ⟨j, hj⟩) h
    simpa [List.get_eq_getElem] using this
  · subst h
    exact le_refl _

theorem draw_seeded (env : RngEnv) (s p k n : ℕ) :
    draw env (.seeded s p) k n = (env.seedGen s p k n, .seeded s (p + 1), env) := rfl

theorem computeDist_env_eq (K : ℕ → ℕ → ℚ) (sw : List ℚ) (L : List ℕ) (w : List ℚ)
    (uw : Bool) (n k s : ℕ) (env : RngEnv) (d0 : ℕ → ℕ → ℚ) :
    (computeDist K sw L w uw n k (some s) env d0).env = env := by
  unfold computeDist
  cases hE : firstEmpty L n k <;> simp [checkRandomState, draw]

theorem computeDist_seed_congr (K : ℕ → ℕ → ℚ) (sw : List ℚ) (L : List ℕ)
    (w : List ℚ) (uw : Bool) (n k s : ℕ) (e1 e2 : RngEnv) (d0 : ℕ → ℕ → ℚ)
    (hg : e1.seedGen = e2.seedGen) :
    (computeDist K sw L w uw n k (some s) e1 d0).dist
      = (computeDist K sw L w uw n k (some s) e2 d0).dist ∧
    (computeDist K sw L w uw n k (some s) e1 d0).labels
      = (computeDist K sw L w uw n k (some s) e2 d0).labels ∧
    (computeDist K sw L w uw n k (some s) e1 d0).within
      = (computeDist K sw L w uw n k (some s) e2 d0).within ∧
    (computeDist K sw L w uw n k (some s) e1 d0).recovered
      = (computeDist K sw L w uw n k (some s) e2 d0).recovered := by
  unfold computeDist
  cases hE : firstEmpty L n k <;> simp [checkRandomState, draw, hg]

theorem iterOnce_seed_congr (K : ℕ → ℕ → ℚ) (sw : List ℚ) (n k : ℕ) (tol : ℚ)
    (s : ℕ) (st1 st2 : LoopState) (hl : st1.labels = st2.labels)
    (hw : st1.within = st2.within) (hg : st1.env.seedGen = st2.env.seedGen) :
    (iterOnce K sw n k tol (some s) st1).1.labels
      = (iterOnce K sw n k tol (some s) st2).1.labels ∧
    (iterOnce K sw n k tol (some s) st1).1.within
      = (iterOnce K sw n k tol (some s) st2).1.within ∧
    (iterOnce K sw n k tol (some s) st1).1.dist
      = (iterOnce K sw n k tol (some s) st2).1.dist ∧
    (iterOnce K sw n k tol (some s) st1).2 = (iterOnce K sw n k tol (some s) st2).2 ∧
    (iterOnce K sw n k tol (some s) st1).1.env = st1.env ∧
    (iterOnce K sw n k tol (some s) st2).1.env = st2.env := by
  obtain ⟨hd, hlb, hwi, _⟩ := computeDist_seed_congr K sw st2.labels st2.within true
    n k s st1.env st2.env (fun _ _ => 0) hg
  simp only [iterOnce, hl, hw]
  refine ⟨?_, ?_, ?_, ?_, ?_, ?_⟩
  · rw [hd]
  · rw [hwi]
  · rw [hd]
  · rw [hd, hlb]
  · exact computeDist_env_eq K sw st2.labels st2.within true n k s st1.env _
  · exact computeDist_env_eq K sw st2.labels st2.within true n k s st2.env _

theorem restartLoop_seed_congr (K : ℕ → ℕ → ℚ) (sw : List ℚ) (n k : ℕ)
    (tol : ℚ) (s : ℕ) (fuel : ℕ) :
    ∀ st1 st2 : LoopState, st1.dist = st2.dist → st1.labels = st2.labels →
      st1.within = st2.within →
      st1.env.seedGen = st2.env.seedGen →
      (restartLoop K sw n k tol (some s) fuel st1).1.labels
        = (restartLoop K sw n k tol (some s) fuel st2).1.labels ∧
      (restartLoop K sw n k tol (some s) fuel st1).1.within
        = (restartLoop K sw n k tol (some s) fuel st2).1.within ∧
      (restartLoop K sw n k tol (some s) fuel st1).1.dist
        = (restartLoop K sw n k tol (some s) fuel st2).1.dist ∧
      (restartLoop K sw n k tol (some s) fuel st1).2
        = (restartLoop K sw n k tol (some s) fuel st2).2 ∧
      (restartLoop K sw n k tol (some s) fuel st1).1.env = st1.env ∧
      (restartLoop K sw n k tol (some s) fuel st2).1.env = st2.env := by
  induction fuel with
  | zero =>
      intro st1 st2 hdist hl hw _
      exact ⟨hl, hw, hdist, rfl, rfl, rfl⟩
  | succ f ih =>
      intro st1 st2 hdist hl hw hg
      obtain ⟨l1, w1, d1, f1, ev1, ev2⟩ := iterOnce_seed_congr K sw n k tol s st1 st2 hl hw hg
      simp only [restartLoop]
      rw [f1]
      by_cases hfl : (iterOnce K sw n k tol (some s) st2).2 = true
      · rw [if_pos hfl, if_pos hfl]
        exact ⟨l1, w1, d1, rfl, ev1, ev2⟩
      · rw [if_neg hfl, if_neg hfl]
        by_cases hf0 : f = 0
        · rw [if_pos hf0, if_pos hf0]
          exact ⟨l1, w1, d1, rfl, ev1, ev2⟩
        · rw [if_neg hf0, if_neg hf0]
          have hg2 : (iterOnce K sw n k tol (some s) st1).1.env.seedGen
              = (iterOnce K sw n k tol (some s) st2).1.env.seedGen := by
            rw [ev1, ev2]; exact hg
          obtain ⟨l3, w3, d3, c3, e3, e4⟩ := ih _ _ d1 l1 w1 hg2
          exact ⟨l3, w3, d3, by rw [c3], by rw [e3, ev1], by rw [e4, ev2]⟩

theorem runRestarts_seed_congr (K : ℕ → ℕ → ℚ) (sw : List ℚ) (n k : ℕ)
    (tol : ℚ) (maxIterN : ℕ) (s : ℕ) (policy : String) (cnt : ℕ) :
    ∀ (p g : ℕ) (e1 e2 : RngEnv) (acc : List RestartRecord),
      e1.seedGen = e2.seedGen →
      (runRestarts K sw n k tol maxIterN (some s) policy cnt (.seeded s p) e1 g acc).1
        = (runRestarts K sw n k tol maxIterN (some s) policy cnt (.seeded s p) e2 g acc).1 ∧
      (runRestarts K sw n k tol maxIterN (some s) policy cnt (.seeded s p) e1 g acc).2.2
        = (runRestarts K sw n k tol maxIterN (some s) policy cnt (.seeded s p) e2 g acc).2.2 := by
  induction cnt with
  | zero =>
      intro p g e1 e2 acc hg
      exact ⟨rfl, rfl⟩
  | succ c ih =>
      intro p g e1 e2 acc hg
      obtain ⟨l1, w1, d1, c1, ev1, ev2⟩ := restartLoop_seed_congr K sw n k tol s maxIterN
        ⟨fun _ _ => 0, e1.seedGen s p k n, List.replicate k 0, e1⟩
        ⟨fun _ _ => 0, e2.seedGen s p k n, List.replicate k 0, e2⟩
        rfl (by simpa using congrFun (congrFun (congrFun (congrFun hg s) p) k) n) rfl
        (by simpa using hg)
      simp only [runRestarts, draw_seeded]
      rw [d1, c1, l1, w1, ev1, ev2]
      cases hc : compensate policy
          (restartLoop K sw n k tol (some s) maxIterN
            ⟨fun _ _ => 0, e2.seedGen s p k n, List.replicate k 0, e2⟩).1.dist n k with
      | error e => exact ⟨rfl, rfl⟩
      | ok d2 =>
          by_cases hnn : allNonneg d2 n k
          · simp only [hnn, if_true]
            exact ih (p + 1) _ e1 e2 _ hg
          · simp only [hnn, if_false]
            exact ⟨rfl, rfl⟩

theorem allNonneg_clamp (d : ℕ → ℕ → ℚ) (n k : ℕ) :
    allNonneg (fun i j => if d i j < 0 then 0 else d i j) n k = true := by
  refine decide_eq_true fun i _ j _ => ?_
  show 0 ≤ if d i j < 0 then (0 : ℚ) else d i j
  by_cases h : d i j < 0
  · rw [if_pos h]
  · rw [if_neg h]
    exact le_of_not_lt h

theorem allNonneg_shiftmin (d : ℕ → ℕ → ℚ) (n k : ℕ) :
    allNonneg (fun i j => d i j - matMin d n k) n k = true := by
  refine decide_eq_true fun i hi j hj => ?_
  exact sub_nonneg.mpr (matMin_le d n k i j hi hj)

theorem compensate_plus40 (d : ℕ → ℕ → ℚ) (n k : ℕ) :
    compensate "+40" d n k = .ok (fun i j => d i j + 40) := rfl

theorem compensate_clamp (d : ℕ → ℕ → ℚ) (n k : ℕ) :
    compensate "<0->0" d n k = .ok (fun i j => if d i j < 0 then 0 else d i j) := rfl

theorem compensate_shiftmin (d : ℕ → ℕ → ℚ) (n k : ℕ) :
    compensate "-min" d n k = .ok (fun i j => d i j - matMin d n k) := rfl

theorem compensate_unknown (pol : String) (d : ℕ → ℕ → ℚ) (n k : ℕ)
    (h1 : pol ≠ "+40") (h2 : pol ≠ "<0->0") (h3 : pol ≠ "-min") :
    compensate pol d n k = .error .notImplemented := by
  rw [compensate, if_neg h1, if_neg h2, if_neg h3]

theorem restartLoop_one (K : ℕ → ℕ → ℚ) (sw : List ℚ) (n k : ℕ) (tol : ℚ)
    (rsOpt : Option ℕ) (st : LoopState) :
    restartLoop K sw n k tol rsOpt 1 st = ((iterOnce K sw n k tol rsOpt st).1, 1) := by
  show restartLoop K sw n k tol rsOpt (0 + 1) st = ((iterOnce K sw n k tol rsOpt st).1, 1)
  rw [restartLoop]
  split
  · rfl
  · rw [if_pos rfl]

theorem restartLoop_converged (K : ℕ → ℕ → ℚ) (sw : List ℚ) (n k : ℕ) (tol : ℚ)
    (rsOpt : Option ℕ) (fuel : ℕ) (st : LoopState) (hf : 1 ≤ fuel)
    (hc : (iterOnce K sw n k tol rsOpt st).2 = true) :
    restartLoop K sw n k tol rsOpt fuel st = ((iterOnce K sw n k tol rsOpt st).1, 1) := by
  obtain ⟨f, rfl⟩ : ∃ f, fuel = f + 1 := ⟨fuel - 1, by omega⟩
  rw [restartLoop]
  simp only [hc, if_true]

theorem runRestarts_one_ok (K : ℕ → ℕ → ℚ) (sw : List ℚ) (n k : ℕ) (tol : ℚ)
    (mi : ℕ) (rsOpt : Option ℕ) (pol : String) (h : RsHandle) (env : RngEnv)
    (g : ℕ) (acc : List RestartRecord) (d2 : ℕ → ℕ → ℚ)
    (hcomp : compensate pol (restartLoop K sw n k tol rsOpt mi
        ⟨fun _ _ => 0, (draw env h k n).1, List.replicate k 0,
          (draw env h k n).2.2⟩).1.dist n k = .ok d2)
    (hnn : allNonneg d2 n k = true) :
    runRestarts K sw n k tol mi rsOpt pol 1 h env g acc =
      (.ok (List.reverse
        ({ inertia := inertiaOf d2 (restartLoop K sw n k tol rsOpt mi
              ⟨fun _ _ => 0, (draw env h k n).1, List.replicate k 0,
                (draw env h k n).2.2⟩).1.labels n,
           n_iter := (restartLoop K sw n k tol rsOpt mi
              ⟨fun _ _ => 0, (draw env h k n).1, List.replicate k 0,
                (draw env h k n).2.2⟩).2,
           labels := (restartLoop K sw n k tol rsOpt mi
              ⟨fun _ _ => 0, (draw env h k n).1, List.replicate k 0,
                (draw env h k n).2.2⟩).1.labels,
           distances := (restartLoop K sw n k tol rsOpt mi
              ⟨fun _ _ => 0, (draw env h k n).1, List.replicate k 0,
                (draw env h k n).2.2⟩).1.within } :: acc)),
        (restartLoop K sw n k tol rsOpt mi
          ⟨fun _ _ => 0, (draw env h k n).1, List.replicate k 0,
            (draw env h k n).2.2⟩).1.env,
        g + (restartLoop K sw n k tol rsOpt mi
          ⟨fun _ _ => 0, (draw env h k n).1, List.replicate k 0,
            (draw env h k n).2.2⟩).2) := by
  show runRestarts K sw n k tol mi rsOpt pol (0 + 1) h env g acc = _
  rw [runRestarts]
  simp only []
  rw [hcomp]
  simp only [hnn, if_true]
  rw [runRestarts]

theorem runRestarts_one_err (K : ℕ → ℕ → ℚ) (sw : List ℚ) (n k : ℕ) (tol : ℚ)
    (mi : ℕ) (rsOpt : Option ℕ) (pol : String) (h : RsHandle) (env : RngEnv)
    (g : ℕ) (acc : List RestartRecord) (e : FitError)
    (hcomp : compensate pol (restartLoop K sw n k tol rsOpt mi
        ⟨fun _ _ => 0, (draw env h k n).1, List.replicate k 0,
          (draw env h k n).2.2⟩).1.dist n k = .error e) :
    runRestarts K sw n k tol mi rsOpt pol 1 h env g acc =
      (.error e,
        (restartLoop K sw n k tol rsOpt mi
          ⟨fun _ _ => 0, (draw env h k n).1, List.replicate k 0,
            (draw env h k n).2.2⟩).1.env,
        g + (restartLoop K sw n k tol rsOpt mi
          ⟨fun _ _ => 0, (draw env h k n).1, List.replicate k 0,
            (draw env h k n).2.2⟩).2) := by
  show runRestarts K sw n k tol mi rsOpt pol (0 + 1) h env g acc = _
  rw [runRestarts]
  simp only []
  rw [hcomp]

theorem runRestarts_bad_policy (K : ℕ → ℕ → ℚ) (sw : List ℚ) (n k : ℕ)
    (tol : ℚ) (mi : ℕ) (rsOpt : Option ℕ) (pol : String)
    (hp1 : pol ≠ "+40") (hp2 : pol ≠ "<0->0") (hp3 : pol ≠ "-min")
    (c : ℕ) (h : RsHandle) (env : RngEnv) (g : ℕ) (acc : List RestartRecord) :
    (runRestarts K sw n k tol mi rsOpt pol (c + 1) h env g acc).1
      = .error .notImplemented ∧
    (runRestarts K sw n k tol mi rsOpt pol (c + 1) h env g acc).2.2
      = g + (restartLoop K sw n k tol rsOpt mi
          ⟨fun _ _ => 0, (draw env h k n).1, List.replicate k 0,
            (draw env h k n).2.2⟩).2 := by
  constructor
  · rw [runRestarts]
    simp only []
    rw [compensate_unknown pol _ n k hp1 hp2 hp3]
  · rw [runRestarts]
    simp only []
    rw [compensate_unknown pol _ n k hp1 hp2 hp3]

/-! ### Claims -/

/-- C1 counterexample: the claim that every compensation policy makes every
entry non-negative fails on the code for the shift-constant policy `'+40'`: on
the 1×1 all-(−41) raw matrix the compensated entry is −1 < 0, so the
post-compensation assertion `np.all(dist >= 0)` fails. -/
theorem C1_counterexample :
    compApply "+40" negFortyOne 1 1 0 0 = -1 ∧
    allNonneg (compApply "+40" negFortyOne 1 1) 1 1 = false := by
  have hval : compApply "+40" negFortyOne 1 1 0 0 = -1 := by
    show (-41 : ℚ) + 40 = -1
    norm_num
  refine ⟨hval, decide_eq_false fun hAll => ?_⟩
  have h1 := hAll 0 (by norm_num) 0 (by norm_num)
  rw [hval] at h1
  norm_num at h1

/-- C1 amended: the clamp-zero policy `'<0->0'` and the shift-min policy
`'-min'` always produce non-negative entries; the shift-constant policy
`'+40'` produces non-negative entries only when every raw entry is at
least −40. -/
theorem C1_amended (d : ℕ → ℕ → ℚ) (n k i j : ℕ) (hi : i < n) (hj : j < k) :
    0 ≤ compApply "<0->0" d n k i j ∧
    0 ≤ compApply "-min" d n k i j ∧
    ((∀ a < n, ∀ b < k, -40 ≤ d a b) → 0 ≤ compApply "+40" d n k i j) := by
  refine ⟨?_, ?_, fun hb => ?_⟩
  · show 0 ≤ (if d i j < 0 then (0 : ℚ) else d i j)
    split
    · exact le_refl 0
    · exact le_of_not_lt (by assumption)
  · show 0 ≤ d i j - matMin d n k
    exact sub_nonneg.mpr (matMin_le d n k i j hi hj)
  · show 0 ≤ d i j + 40
    have := hb i hi j hj
    linarith

/-- Witness for C1 amended at the all-(−5) 1×1 matrix. -/
theorem C1_amended_witness :
    0 ≤ compApply "<0->0" negFive 1 1 0 0 ∧
    0 ≤ compApply "-min" negFive 1 1 0 0 ∧
    0 ≤ compApply "+40" negFive 1 1 0 0 := by
  obtain ⟨h1, h2, h3⟩ := C1_amended negFive 1 1 0 0 (by decide) (by decide)
  exact ⟨h1, h2, h3 (by decide)⟩

/-- C2 counterexample: on `K = [[-1,0],[0,-1]]` with assignment `[0,0]`
(cluster 1 empty), the recovery branch fires and replaces the labels with the
fresh draw `[0,0]`, yet the iteration then assigns `labels = argmin(dist)` over
the partially computed distance matrix, producing `[1,1]` — the abandoned
computation's results ARE used for label assignment, contradicting the
claim. -/
theorem C2_counterexample :
    (computeDist Kneg [1, 1] [0, 0] [0, 0] true 2 2 (some 0) envTwoZeros
        (fun _ _ => 0)).recovered = true ∧
    (computeDist Kneg [1, 1] [0, 0] [0, 0] true 2 2 (some 0) envTwoZeros
        (fun _ _ => 0)).labels = [0, 0] ∧
    (iterOnce Kneg [1, 1] 2 2 (1 / 100) (some 0) stEmpty1).1.labels = [1, 1] ∧
    (iterOnce Kneg [1, 1] 2 2 (1 / 100) (some 0) stEmpty1).1.labels
      ≠ (computeDist Kneg [1, 1] [0, 0] [0, 0] true 2 2 (some 0) envTwoZeros
          (fun _ _ => 0)).labels := by
  have h2 : (computeDist Kneg [1, 1] [0, 0] [0, 0] true 2 2 (some 0) envTwoZeros
      (fun _ _ => 0)).labels = [0, 0] := by decide
  have h3 : (iterOnce Kneg [1, 1] 2 2 (1 / 100) (some 0) stEmpty1).1.labels = [1, 1] := by
    norm_num [iterOnce, computeDist, firstEmpty, members, distEntry, withinNew, crossSum,
      clusterWeight, argminRow, countSame, draw, checkRandomState, stEmpty1, Kneg,
      envTwoZeros, List.range_succ]
  refine ⟨by decide, h2, h3, ?_⟩
  rw [h2, h3]
  decide

/-- C2 amended: when a cluster is empty the assignment is replaced by a fresh
draw, the within-cluster distances are zeroed and the remaining columns of the
distance matrix are left at zero — but the partially computed matrix is still
used: the iteration immediately overwrites the fresh relabeling with the
row-wise argmin of that partial matrix. -/
theorem C2_amended (K : ℕ → ℕ → ℚ) (sw : List ℚ) (n k : ℕ) (tol : ℚ)
    (rsOpt : Option ℕ) (st : LoopState) (j0 : ℕ)
    (h : firstEmpty st.labels n k = some j0) (i j : ℕ) (hj : j0 ≤ j) :
    (computeDist K sw st.labels st.within true n k rsOpt st.env
        (fun _ _ => 0)).recovered = true ∧
    (computeDist K sw st.labels st.within true n k rsOpt st.env
        (fun _ _ => 0)).labels = (draw st.env (checkRandomState rsOpt) k n).1 ∧
    (computeDist K sw st.labels st.within true n k rsOpt st.env
        (fun _ _ => 0)).within = List.replicate k 0 ∧
    (computeDist K sw st.labels st.within true n k rsOpt st.env
        (fun _ _ => 0)).dist i j = 0 ∧
    (iterOnce K sw n k tol rsOpt st).1.labels
      = (List.range n).map (fun i2 => argminRow
          ((computeDist K sw st.labels st.within true n k rsOpt st.env
            (fun _ _ => 0)).dist i2) k) := by
  refine ⟨?_, ?_, ?_, ?_, rfl⟩
  · simp only [computeDist, h]
  · simp only [computeDist, h]
  · simp only [computeDist, h]
  · simp only [computeDist, h]
    rw [if_neg (not_lt.mpr hj)]

/-- Witness for C2 amended at the concrete recovery scenario. -/
theorem C2_amended_witness :
    firstEmpty stEmpty1.labels 2 2 = some 1 ∧
    ((computeDist Kneg [1, 1] stEmpty1.labels stEmpty1.within true 2 2 (some 0)
        stEmpty1.env (fun _ _ => 0)).recovered = true ∧
      (computeDist Kneg [1, 1] stEmpty1.labels stEmpty1.within true 2 2 (some 0)
          stEmpty1.env (fun _ _ => 0)).labels
        = (draw stEmpty1.env (checkRandomState (some 0)) 2 2).1 ∧
      (computeDist Kneg [1, 1] stEmpty1.labels stEmpty1.within true 2 2 (some 0)
          stEmpty1.env (fun _ _ => 0)).within = List.replicate 2 0 ∧
      (computeDist Kneg [1, 1] stEmpty1.labels stEmpty1.within true 2 2 (some 0)
          stEmpty1.env (fun _ _ => 0)).dist 0 1 = 0 ∧
      (iterOnce Kneg [1, 1] 2 2 (1 / 100) (some 0) stEmpty1).1.labels
        = (List.range 2).map (fun i2 => argminRow
            ((computeDist Kneg [1, 1] stEmpty1.labels stEmpty1.within true 2 2
              (some 0) stEmpty1.env (fun _ _ => 0)).dist i2) 2)) :=
  ⟨by decide, C2_amended Kneg [1, 1] 2 2 (1 / 100) (some 0) stEmpty1 1
    (by decide) 0 1 (by decide)⟩

/-- C3 counterexample: on the spec's own 4×4 block kernel with k = 2,
`tol = 3/5 ∈ (0,1)`, `n_init = 1`, initial labels `[0,1,0,1]`, the first
iteration's argmin collapses everything to cluster 0 and the convergence test
fires, so `fit` returns final labels `[0,0,0,0]` — cluster id 1 is used by no
sample, and at scoring time cluster 1 is likewise empty. -/
theorem C3_counterexample :
    (fitT cfgBlock Kblock 4 none envAlt4).1
      = .ok { labels_ := [0, 0, 0, 0], within_distances_ := [1/2, 1/2],
              n_iter_ := 1, sample_weight_ := [1, 1, 1, 1], n_clusters := 2,
              nFit := 4, random_state := some 0 } ∧
    ([0, 0, 0, 0] : List ℕ).count 1 = 0 ∧ 1 < cfgBlock.n_clusters := by
  refine ⟨?_, by decide, by decide⟩
  have hconv : (iterOnce Kblock (List.replicate 4 1) 4 2 (3/5) (some 0)
      ⟨fun _ _ => 0, (draw envAlt4 (.seeded 0 0) 2 4).1,
        List.replicate 2 0, (draw envAlt4 (.seeded 0 0) 2 4).2.2⟩).2 = true := by
    norm_num [iterOnce, computeDist, firstEmpty, members, distEntry, withinNew, crossSum,
      clusterWeight, argminRow, countSame, draw, envAlt4, Kblock, List.range_succ]
  have hlabels : (iterOnce Kblock (List.replicate 4 1) 4 2 (3/5) (some 0)
      ⟨fun _ _ => 0, (draw envAlt4 (.seeded 0 0) 2 4).1,
        List.replicate 2 0, (draw envAlt4 (.seeded 0 0) 2 4).2.2⟩).1.labels
      = [0, 0, 0, 0] := by
    norm_num [iterOnce, computeDist, firstEmpty, members, distEntry, withinNew, crossSum,
      clusterWeight, argminRow, countSame, draw, envAlt4, Kblock, List.range_succ]
  have hwithin : (iterOnce Kblock (List.replicate 4 1) 4 2 (3/5) (some 0)
      ⟨fun _ _ => 0, (draw envAlt4 (.seeded 0 0) 2 4).1,
        List.replicate 2 0, (draw envAlt4 (.seeded 0 0) 2 4).2.2⟩).1.within
      = [1/2, 1/2] := by
    norm_num [iterOnce, computeDist, firstEmpty, members, distEntry, withinNew, crossSum,
      clusterWeight, argminRow, countSame, draw, envAlt4, Kblock, List.range_succ]
  have hRL := restartLoop_converged Kblock (List.replicate 4 1) 4 2 (3/5) (some 0) 50
    ⟨fun _ _ => 0, (draw envAlt4 (.seeded 0 0) 2 4).1,
      List.replicate 2 0, (draw envAlt4 (.seeded 0 0) 2 4).2.2⟩ (by norm_num) hconv
  simp only [fitT]
  rw [if_neg (by decide), if_neg (by decide), if_neg (by decide)]
  simp only [cfgBlock, Option.getD_none, checkRandomState]
  rw [show ((50 : ℤ)).toNat = 50 from rfl, show ((1 : ℤ)).toNat = 1 from rfl]
  rw [runRestarts_one_ok Kblock (List.replicate 4 1) 4 2 (3/5) 50 (some 0) "<0->0"
    (.seeded 0 0) envAlt4 0 [] _ (compensate_clamp _ 4 2) (allNonneg_clamp _ 4 2)]
  rw [hRL]
  simp only [hlabels, hwithin]
  rfl

/-- C3 amended: the assignment fed into a distance computation that completes
without triggering recovery has every cluster id in `[0,k)` inhabited; but an
empty cluster may survive the arg-min reassignment into the scored matrix and
the final result of `fit`. -/
theorem C3_amended (K : ℕ → ℕ → ℚ) (sw : List ℚ) (L : List ℕ) (within : List ℚ)
    (uw : Bool) (n k : ℕ) (rsOpt : Option ℕ) (env : RngEnv) (d0 : ℕ → ℕ → ℚ)
    (j : ℕ) (hj : j < k)
    (hrec : (computeDist K sw L within uw n k rsOpt env d0).recovered = false) :
    members L n j ≠ [] := by
  intro hnil
  cases hE : firstEmpty L n k with
  | some j0 =>
      unfold computeDist at hrec
      rw [hE] at hrec
      simp at hrec
  | none =>
      have hno := List.find?_eq_none.mp hE j (List.mem_range.mpr hj)
      exact hno (by rw [hnil]; rfl)

/-- Witness for C3 amended: a non-recovering computation on labels `[0,1]`. -/
theorem C3_amended_witness :
    (computeDist Kid [1, 1] [0, 1] [0, 0] true 2 2 (some 0) envTwoZeros
        (fun _ _ => 0)).recovered = false ∧
    members [0, 1] 2 0 ≠ [] :=
  ⟨by decide, C3_amended Kid [1, 1] [0, 1] [0, 0] true 2 2 (some 0) envTwoZeros
    (fun _ _ => 0) 0 (by decide) (by decide)⟩

/-- C4 counterexample: with assignment `[1,1]` (cluster 0 empty, cluster 1
non-empty) on the all-ones kernel, the computed matrix has `dist(0,1) = 0`
because the loop breaks at the empty cluster 0 before writing column 1, while
the claimed formula gives −1 for the non-empty cluster 1. -/
theorem C4_counterexample :
    (computeDist Kones [1, 1] [1, 1] [0, 0] true 2 2 (some 0) envTwoZeros
        (fun _ _ => 0)).dist 0 1 = 0 ∧
    specDistTrue Kones [1, 1] [1, 1] 2 0 1 = -1 ∧
    members [1, 1] 2 1 ≠ [] := by
  refine ⟨?_, ?_, by decide⟩
  · norm_num [computeDist, firstEmpty, members, List.range_succ]
  · norm_num [specDistTrue, specWithin, specCross, members, clusterWeight, Kones,
      List.range_succ]

/-- C4 amended: when every cluster is non-empty under the current assignment,
the computed entry `dist(i,j)` equals the spec formula — the freshly
recomputed within term with `update_within=true`, and the stored within
constants with `update_within=false`. -/
theorem C4_amended (K : ℕ → ℕ → ℚ) (sw : List ℚ) (within : List ℚ)
    (L : List ℕ) (n k : ℕ) (rsOpt : Option ℕ) (env : RngEnv) (i j : ℕ)
    (hj : j < k) (hne : ∀ j2 < k, members L n j2 ≠ []) :
    (computeDist K sw L within true n k rsOpt env (fun _ _ => 0)).dist i j
      = specDistTrue K sw L n i j ∧
    (computeDist K sw L within false n k rsOpt env (fun _ _ => 0)).dist i j
      = specDistFalse K sw within L n i j := by
  have hFE := firstEmpty_eq_none L n k hne
  constructor
  · simp only [computeDist, hFE]
    rw [if_pos hj]
    show (0 : ℚ) + withinNew K sw (members L n j)
        - 2 * crossSum K sw (members L n j) i / clusterWeight sw (members L n j)
      = specDistTrue K sw L n i j
    rw [withinNew_eq_specWithin]
    simp only [specDistTrue, specCross, crossSum]
    ring
  · simp only [computeDist, hFE]
    rw [if_pos hj]
    show (0 : ℚ) + within.getD j 0
        - 2 * crossSum K sw (members L n j) i / clusterWeight sw (members L n j)
      = specDistFalse K sw within L n i j
    simp only [specDistFalse, specCross, crossSum]
    ring

/-- Witness for C4 amended on labels `[0,1]` (both clusters inhabited). -/
theorem C4_amended_witness :
    (computeDist Kid [1, 1] [0, 1] [5, 7] true 2 2 (some 0) envTwoZeros
        (fun _ _ => 0)).dist 0 1 = specDistTrue Kid [1, 1] [0, 1] 2 0 1 ∧
    (computeDist Kid [1, 1] [0, 1] [5, 7] false 2 2 (some 0) envTwoZeros
        (fun _ _ => 0)).dist 0 1 = specDistFalse Kid [1, 1] [5, 7] [0, 1] 2 0 1 :=
  C4_amended Kid [1, 1] [5, 7] [0, 1] 2 2 (some 0) envTwoZeros 0 1 (by decide)
    (by decide)

/-- C5: restart selection works on the list sorted ascending by the
objective — `min` takes the first element, `median` the element at
`len // 2`, `max` the last — so with the inertia objective the selected
inertias satisfy min ≤ median ≤ max on any non-empty result list. -/
theorem C5_confirmed (rs : List RestartRecord) (h : rs ≠ []) :
    chosenInertia "min" (sortRecords (fun r => r.inertia) rs)
      ≤ chosenInertia "median" (sortRecords (fun r => r.inertia) rs) ∧
    chosenInertia "median" (sortRecords (fun r => r.inertia) rs)
      ≤ chosenInertia "max" (sortRecords (fun r => r.inertia) rs) := by
  have hs := sortRecords_sorted (fun r => r.inertia) rs
  have hlen : 0 < (sortRecords (fun r => r.inertia) rs).length := by
    rw [sortRecords_length]
    exact List.length_pos.mpr h
  have e1 : chosenInertia "min" (sortRecords (fun r => r.inertia) rs)
      = ((sortRecords (fun r => r.inertia) rs).getD 0 dummyRecord).inertia := rfl
  have e2 : chosenInertia "median" (sortRecords (fun r => r.inertia) rs)
      = ((sortRecords (fun r => r.inertia) rs).getD
          ((sortRecords (fun r => r.inertia) rs).length / 2) dummyRecord).inertia := rfl
  have e3 : chosenInertia "max" (sortRecords (fun r => r.inertia) rs)
      = ((sortRecords (fun r => r.inertia) rs).getD
          ((sortRecords (fun r => r.inertia) rs).length - 1) dummyRecord).inertia := rfl
  rw [e1, e2, e3]
  constructor
  · exact sorted_key_getD_le (fun r => r.inertia) _ hs 0 _ (Nat.zero_le _)
      (Nat.div_lt_self hlen (by norm_num))
  · exact sorted_key_getD_le (fun r => r.inertia) _ hs _ _ (by omega) (by omega)

/-- Witness for C5 on a two-element result list with inertias 5 and 3. -/
theorem C5_confirmed_witness :
    ([recA, recB] : List RestartRecord) ≠ [] ∧
    (chosenInertia "min" (sortRecords (fun r => r.inertia) [recA, recB])
       ≤ chosenInertia "median" (sortRecords (fun r => r.inertia) [recA, recB]) ∧
     chosenInertia "median" (sortRecords (fun r => r.inertia) [recA, recB])
       ≤ chosenInertia "max" (sortRecords (fun r => r.inertia) [recA, recB])) :=
  ⟨by simp, C5_confirmed [recA, recB] (by simp)⟩

/-- C6: the convergence test fires exactly after an iteration, never before
the first; if the first iteration's argmin reassignment leaves the labels
unchanged and `tol > 0`, the restart stops with exactly one iteration
executed, for any iteration bound — a second iteration never runs. -/
theorem C6_confirmed (K : ℕ → ℕ → ℚ) (sw : List ℚ) (n k : ℕ) (tol : ℚ)
    (rsOpt : Option ℕ) (st : LoopState) (miter : ℕ) (hn : 0 < n)
    (htol : 0 < tol) (hm : 1 ≤ miter)
    (hstable : (iterOnce K sw n k tol rsOpt st).1.labels
      = (computeDist K sw st.labels st.within true n k rsOpt st.env
          (fun _ _ => 0)).labels) :
    restartLoop K sw n k tol rsOpt miter st = ((iterOnce K sw n k tol rsOpt st).1, 1) ∧
    (iterOnce K sw n k tol rsOpt st).2 = true := by
  have h2 : (iterOnce K sw n k tol rsOpt st).2
      = decide ((1 : ℚ) - (countSame ((iterOnce K sw n k tol rsOpt st).1.labels)
          ((computeDist K sw st.labels st.within true n k rsOpt st.env
            (fun _ _ => 0)).labels) : ℚ) / (n : ℚ) < tol) := rfl
  have hlen : (computeDist K sw st.labels st.within true n k rsOpt st.env
      (fun _ _ => 0)).labels.length = n := by
    rw [← hstable]
    show ((List.range n).map _).length = n
    simp
  have hconv : (iterOnce K sw n k tol rsOpt st).2 = true := by
    rw [h2, hstable, countSame_self, hlen]
    have hne : (n : ℚ) ≠ 0 := Nat.cast_ne_zero.mpr hn.ne'
    rw [div_self hne]
    simpa using htol
  exact ⟨restartLoop_converged K sw n k tol rsOpt miter st hm hconv, hconv⟩

/-- Witness for C6 at the stable block assignment `[0,0,1,1]`. -/
theorem C6_confirmed_witness :
    restartLoop Kblock [1, 1, 1, 1] 4 2 (1/2) (some 0) 5 stStable
      = ((iterOnce Kblock [1, 1, 1, 1] 4 2 (1/2) (some 0) stStable).1, 1) ∧
    (iterOnce Kblock [1, 1, 1, 1] 4 2 (1/2) (some 0) stStable).2 = true :=
  C6_confirmed Kblock [1, 1, 1, 1] 4 2 (1/2) (some 0) stStable 5 (by norm_num)
    (by norm_num) (by norm_num)
    (by norm_num [iterOnce, computeDist, firstEmpty, members, distEntry, withinNew,
      crossSum, clusterWeight, argminRow, countSame, stStable, Kblock, envAlt4,
      List.range_succ])

/-- C7 counterexample: an unrecognized compensation policy is raised only
after the first restart's iteration loop already ran (one distance
computation was executed, not zero), and both the unrecognized-policy and the
unrecognized-strategy failures raise the same parameterless
`NotImplemented` error, identifying no parameter. -/
theorem C7_counterexample :
    (fitT cfgBadPolicy Kones 1 none envZeros).1 = .error .notImplemented ∧
    (fitT cfgBadPolicy Kones 1 none envZeros).2 = 1 ∧
    (fitT cfgBadStrategy Kones 1 none envZeros).1 = .error .notImplemented ∧
    (fitT cfgBadStrategy Kones 1 none envZeros).2 = 1 := by
  have hcount : (restartLoop Kones (List.replicate 1 1) 1 1 (1/2) (some 0) 1
      ⟨fun _ _ => 0, (draw envZeros (.seeded 0 0) 1 1).1, List.replicate 1 0,
        (draw envZeros (.seeded 0 0) 1 1).2.2⟩).2 = 1 := by
    rw [restartLoop_one]
  have hbadpol : fitT cfgBadPolicy Kones 1 none envZeros
      = (.error .notImplemented,
          0 + (restartLoop Kones (List.replicate 1 1) 1 1 (1/2) (some 0) 1
            ⟨fun _ _ => 0, (draw envZeros (.seeded 0 0) 1 1).1, List.replicate 1 0,
              (draw envZeros (.seeded 0 0) 1 1).2.2⟩).2) := by
    simp only [fitT]
    rw [if_neg (by decide), if_neg (by decide), if_neg (by decide)]
    simp only [cfgBadPolicy, Option.getD_none, checkRandomState]
    rw [show ((1 : ℤ)).toNat = 1 from rfl]
    rw [runRestarts_one_err Kones (List.replicate 1 1) 1 1 (1/2) 1 (some 0) "oops"
      (.seeded 0 0) envZeros 0 [] .notImplemented
      (compensate_unknown "oops" _ 1 1 (by decide) (by decide) (by decide))]
  have hbadstr : fitT cfgBadStrategy Kones 1 none envZeros
      = (.error .notImplemented,
          0 + (restartLoop Kones (List.replicate 1 1) 1 1 (1/2) (some 0) 1
            ⟨fun _ _ => 0, (draw envZeros (.seeded 0 0) 1 1).1, List.replicate 1 0,
              (draw envZeros (.seeded 0 0) 1 1).2.2⟩).2) := by
    simp only [fitT]
    rw [if_neg (by decide), if_neg (by decide), if_neg (by decide)]
    simp only [cfgBadStrategy, cfgBadPolicy, Option.getD_none, checkRandomState]
    rw [show ((1 : ℤ)).toNat = 1 from rfl]
    rw [runRestarts_one_ok Kones (List.replicate 1 1) 1 1 (1/2) 1 (some 0) "-min"
      (.seeded 0 0) envZeros 0 [] _ (compensate_shiftmin _ 1 1)
      (allNonneg_shiftmin _ 1 1)]
    rfl
  refine ⟨?_, ?_, ?_, ?_⟩
  · rw [hbadpol]
  · rw [hbadpol, Nat.zero_add, hcount]
  · rw [hbadstr]
  · rw [hbadstr, Nat.zero_add, hcount]

/-- C7 amended: the three validation failures (`n_samples < n_clusters`,
`n_init ≤ 0`, `max_iter ≤ 0`) are raised before any distance computation with
an error carrying the offending value; an unrecognized compensation policy is
raised as a parameterless `NotImplemented` error only after at least one
distance computation has run. -/
theorem C7_amended :
    (∀ (cfg : Config) (K : ℕ → ℕ → ℚ) (n : ℕ) (sw : Option (List ℚ)) (env : RngEnv),
      n < cfg.n_clusters →
        fitT cfg K n sw env = (.error (.nSamplesLtClusters n cfg.n_clusters), 0)) ∧
    (∀ (cfg : Config) (K : ℕ → ℕ → ℚ) (n : ℕ) (sw : Option (List ℚ)) (env : RngEnv),
      ¬ n < cfg.n_clusters → cfg.n_init ≤ 0 →
        fitT cfg K n sw env = (.error (.badNInit cfg.n_init), 0)) ∧
    (∀ (cfg : Config) (K : ℕ → ℕ → ℚ) (n : ℕ) (sw : Option (List ℚ)) (env : RngEnv),
      ¬ n < cfg.n_clusters → 0 < cfg.n_init → cfg.max_iter ≤ 0 →
        fitT cfg K n sw env = (.error (.badMaxIter cfg.max_iter), 0)) ∧
    (∀ (cfg : Config) (K : ℕ → ℕ → ℚ) (n : ℕ) (sw : Option (List ℚ)) (env : RngEnv),
      ¬ n < cfg.n_clusters → 0 < cfg.n_init → 0 < cfg.max_iter →
      cfg.dist_compensation_strategy ≠ "+40" →
      cfg.dist_compensation_strategy ≠ "<0->0" →
      cfg.dist_compensation_strategy ≠ "-min" →
        (fitT cfg K n sw env).1 = .error .notImplemented ∧
        1 ≤ (fitT cfg K n sw env).2) := by
  refine ⟨?_, ?_, ?_, ?_⟩
  · intro cfg K n sw env h1
    simp only [fitT, if_pos h1]
  · intro cfg K n sw env h1 h2
    simp only [fitT, if_neg h1, if_pos h2]
  · intro cfg K n sw env h1 h2 h3
    simp only [fitT, if_neg h1, if_neg (not_le.mpr h2), if_pos h3]
  · intro cfg K n sw env h1 h2 h3 hp1 hp2 hp3
    obtain ⟨c, hc⟩ := Nat.exists_eq_succ_of_ne_zero
      (show cfg.n_init.toNat ≠ 0 by rwa [ne_eq, Int.toNat_eq_zero, not_le])
    have hmi : 1 ≤ cfg.max_iter.toNat := by omega
    have hcount := restartLoop_count_pos K (sw.getD (List.replicate n 1)) n
      cfg.n_clusters cfg.tol cfg.random_state cfg.max_iter.toNat
      ⟨fun _ _ => 0,
        (draw env (checkRandomState cfg.random_state) cfg.n_clusters n).1,
        List.replicate cfg.n_clusters 0,
        (draw env (checkRandomState cfg.random_state) cfg.n_clusters n).2.2⟩ hmi
    have hrun := runRestarts_bad_policy K (sw.getD (List.replicate n 1)) n
      cfg.n_clusters cfg.tol cfg.max_iter.toNat cfg.random_state
      cfg.dist_compensation_strategy hp1 hp2 hp3 c
      (checkRandomState cfg.random_state) env 0 []
    constructor
    · simp only [fitT, if_neg h1, if_neg (not_le.mpr h2), if_neg (not_le.mpr h3)]
      rw [hc]
      simp only [hrun.1]
    · simp only [fitT, if_neg h1, if_neg (not_le.mpr h2), if_neg (not_le.mpr h3)]
      rw [hc]
      simp only [hrun.1]
      rw [hrun.2]
      omega

/-- Witness for C7 amended at concrete invalid configurations. -/
theorem C7_amended_witness :
    fitT cfgTwoClusters Kones 1 none envZeros
      = (.error (.nSamplesLtClusters 1 2), 0) ∧
    fitT cfgZeroInit Kones 1 none envZeros = (.error (.badNInit 0), 0) ∧
    fitT cfgZeroIter Kones 1 none envZeros = (.error (.badMaxIter 0), 0) ∧
    ((fitT cfgBadPolicy Kones 1 none envZeros).1 = .error .notImplemented ∧
      1 ≤ (fitT cfgBadPolicy Kones 1 none envZeros).2) := by
  refine ⟨?_, ?_, ?_, ?_⟩
  · exact C7_amended.1 cfgTwoClusters Kones 1 none envZeros (by decide)
  · exact C7_amended.2.1 cfgZeroInit Kones 1 none envZeros (by decide) (by decide)
  · exact C7_amended.2.2.1 cfgZeroIter Kones 1 none envZeros (by decide) (by decide)
      (by decide)
  · exact C7_amended.2.2.2 cfgBadPolicy Kones 1 none envZeros (by decide) (by decide)
      (by decide) (by decide) (by decide) (by decide)

/-- C8 counterexample: predicting on a fitted model whose labels `[0,0]`
leave cluster 1 empty mutates the fitted state — `_compute_dist` replaces
`labels_` with a fresh draw and zero-fills `within_distances_` — and a second
`predict` with the same kernel matrix returns different labels than the
first. -/
theorem C8_counterexample :
    (predict mEmpty1 Kid 2 envZeroOne).labels = [1, 1] ∧
    (predict mEmpty1 Kid 2 envZeroOne).model.labels_ = [0, 1] ∧
    (predict mEmpty1 Kid 2 envZeroOne).model.labels_ ≠ mEmpty1.labels_ ∧
    (predict mEmpty1 Kid 2 envZeroOne).model.within_distances_ = [0, 0] ∧
    (predict (predict mEmpty1 Kid 2 envZeroOne).model Kid 2
        (predict mEmpty1 Kid 2 envZeroOne).env).labels = [0, 1] ∧
    (predict (predict mEmpty1 Kid 2 envZeroOne).model Kid 2
        (predict mEmpty1 Kid 2 envZeroOne).env).labels
      ≠ (predict mEmpty1 Kid 2 envZeroOne).labels := by
  have h1 : (predict mEmpty1 Kid 2 envZeroOne).labels = [1, 1] := by
    norm_num [predict, computeDist, firstEmpty, members, distEntry, withinNew, crossSum,
      clusterWeight, argminRow, draw, checkRandomState, mEmpty1, Kid, envZeroOne,
      List.range_succ]
  have h2 : (predict mEmpty1 Kid 2 envZeroOne).model.labels_ = [0, 1] := by decide
  have h4 : (predict mEmpty1 Kid 2 envZeroOne).model.within_distances_ = [0, 0] := by
    decide
  have h5 : (predict (predict mEmpty1 Kid 2 envZeroOne).model Kid 2
      (predict mEmpty1 Kid 2 envZeroOne).env).labels = [0, 1] := by
    norm_num [predict, computeDist, firstEmpty, members, distEntry, withinNew, crossSum,
      clusterWeight, argminRow, draw, checkRandomState, mEmpty1, Kid, envZeroOne,
      List.range_succ]
  refine ⟨h1, h2, ?_, h4, h5, ?_⟩
  · rw [h2]; decide
  · rw [h1, h5]; decide

/-- C8 amended: when every cluster id is inhabited under the fitted labels,
`predict` leaves the fitted state unchanged, its output does not depend on the
random environment, and a second call with the same kernel matrix returns
identical labels. -/
theorem C8_amended (m : FittedModel) (Knew : ℕ → ℕ → ℚ) (nNew : ℕ)
    (e1 e2 : RngEnv)
    (hne : ∀ j < m.n_clusters, members m.labels_ m.nFit j ≠ []) :
    (predict m Knew nNew e1).model = m ∧
    (predict m Knew nNew e1).labels = (predict m Knew nNew e2).labels ∧
    (predict (predict m Knew nNew e1).model Knew nNew
        (predict m Knew nNew e1).env).labels = (predict m Knew nNew e1).labels := by
  have hFE := firstEmpty_eq_none m.labels_ m.nFit m.n_clusters hne
  have hmodel : (predict m Knew nNew e1).model = m := by
    simp only [predict, computeDist, hFE, Bool.false_eq_true, if_false]
  have hlabels : ∀ e : RngEnv,
      (predict m Knew nNew e).labels = (predict m Knew nNew e2).labels := by
    intro e
    simp only [predict, computeDist, hFE]
  refine ⟨hmodel, hlabels e1, ?_⟩
  rw [hmodel]
  exact (hlabels _).trans (hlabels e1).symm

/-- Witness for C8 amended at a model using both clusters. -/
theorem C8_amended_witness :
    (∀ j < mFull.n_clusters, members mFull.labels_ mFull.nFit j ≠ []) ∧
    ((predict mFull Kid 2 envZeroOne).model = mFull ∧
     (predict mFull Kid 2 envZeroOne).labels
        = (predict mFull Kid 2 envTwoZeros).labels ∧
     (predict (predict mFull Kid 2 envZeroOne).model Kid 2
        (predict mFull Kid 2 envZeroOne).env).labels
        = (predict mFull Kid 2 envZeroOne).labels) :=
  ⟨by decide, C8_amended mFull Kid 2 envZeroOne envTwoZeros (by decide)⟩

/-- C9: with a fixed integer seed, `fit` does not read the global random
state — two runs that differ only in the ambient generator (the hidden input
that varies between repeated executions) return identical results, so a fixed
seed makes `fit` fully reproducible. -/
theorem C9_confirmed (cfg : Config) (K : ℕ → ℕ → ℚ) (n : ℕ)
    (sw : Option (List ℚ)) (s : ℕ) (e1 e2 : RngEnv)
    (hs : cfg.random_state = some s) (hg : e1.seedGen = e2.seedGen) :
    fitT cfg K n sw e1 = fitT cfg K n sw e2 := by
  by_cases h1 : n < cfg.n_clusters
  · simp only [fitT, if_pos h1]
  by_cases h2 : cfg.n_init ≤ 0
  · simp only [fitT, if_neg h1, if_pos h2]
  by_cases h3 : cfg.max_iter ≤ 0
  · simp only [fitT, if_neg h1, if_neg h2, if_pos h3]
  simp only [fitT, if_neg h1, if_neg h2, if_neg h3, hs, checkRandomState]
  obtain ⟨hres, hghost⟩ := runRestarts_seed_congr K (sw.getD (List.replicate n 1)) n
    cfg.n_clusters cfg.tol cfg.max_iter.toNat s cfg.dist_compensation_strategy
    cfg.n_init.toNat 0 0 e1 e2 [] hg
  rw [hres, hghost]

/-- Witness for C9: the same seeded configuration run under two different
ambient generators. -/
theorem C9_confirmed_witness :
    fitT cfgValid1 Kones 1 none envZeros = fitT cfgValid1 Kones 1 none envZerosShifted :=
  C9_confirmed cfgValid1 Kones 1 none 0 envZeros envZerosShifted rfl rfl

/-- C10: with a fixed integer seed, every empty-cluster recovery event draws
from a freshly constructed generator seeded with that integer, so the
replacement labels equal the seed stream's first draw — identical for every
recovery event in the same `fit` call, whatever the assignment, stored
distances or iteration at which recovery fires. -/
theorem C10_confirmed (K : ℕ → ℕ → ℚ) (sw : List ℚ) (L1 L2 : List ℕ)
    (w1 w2 : List ℚ) (n k s : ℕ) (e1 e2 : RngEnv) (d01 d02 : ℕ → ℕ → ℚ)
    (j1 j2 : ℕ) (hg : e1.seedGen = e2.seedGen)
    (h1 : firstEmpty L1 n k = some j1) (h2 : firstEmpty L2 n k = some j2) :
    (computeDist K sw L1 w1 true n k (some s) e1 d01).labels
      = e1.seedGen s 0 k n ∧
    (computeDist K sw L2 w2 true n k (some s) e2 d02).labels
      = (computeDist K sw L1 w1 true n k (some s) e1 d01).labels := by
  constructor
  · simp only [computeDist, h1, checkRandomState, draw]
  · simp only [computeDist, h1, h2, checkRandomState, draw]
    rw [hg]

/-- Witness for C10 at two different empty-cluster assignments. -/
theorem C10_confirmed_witness :
    firstEmpty [0, 0] 2 2 = some 1 ∧ firstEmpty [1, 1] 2 2 = some 0 ∧
    ((computeDist Kid [1, 1] [0, 0] [0, 0] true 2 2 (some 0) envZeroOne
        (fun _ _ => 0)).labels = envZeroOne.seedGen 0 0 2 2 ∧
     (computeDist Kid [1, 1] [1, 1] [0, 0] true 2 2 (some 0) envZeroOne
        (fun _ _ => 0)).labels
       = (computeDist Kid [1, 1] [0, 0] [0, 0] true 2 2 (some 0) envZeroOne
        (fun _ _ => 0)).labels) :=
  ⟨by decide, by decide, C10_confirmed Kid [1, 1] [0, 0] [1, 1] [0, 0] [0, 0] 2 2 0
    envZeroOne envZeroOne (fun _ _ => 0) (fun _ _ => 0) 1 0 rfl (by decide) (by decide)⟩

end KKMeans
